import Mathlib

/-!
Shallow embedding of the `CdkResourceInitializer` construct and the parts of
`ExampleFargateStack` that the verified claims refer to.

The initializer serializes its configuration with `JSON.stringify`, hashes the
serialization with MD5, keeps the first 6 hex characters as a fingerprint, and
uses `{id}-AwsSdkCall-{version}{fingerprint}` as the physical resource id of an
`AwsCustomResource` that invokes a Lambda function on create/update events.
MD5 is implemented here in full so that fingerprints can be computed inside
Lean; bytes are `Nat` values below 256 and 32-bit words are `Nat` values with
explicit reduction modulo `2 ^ 32`.
-/

namespace ExampleEcs

/-! ### MD5 (RFC 1321), over byte lists -/

namespace MD5

def mod32 : Nat := 4294967296

/-- Left-rotation of a 32-bit word. -/
def rotl32 (x n : Nat) : Nat :=
  ((x <<< n) ||| (x >>> (32 - n))) % mod32

/-- Bitwise complement of a 32-bit word. -/
def bnot32 (x : Nat) : Nat := 4294967295 ^^^ x

/-- The 64 sine-derived round constants. -/
def K : List Nat :=
  [0xd76aa478, 0xe8c7b756, 0x242070db, 0xc1bdceee,
   0xf57c0faf, 0x4787c62a, 0xa8304613, 0xfd469501,
   0x698098d8, 0x8b44f7af, 0xffff5bb1, 0x895cd7be,
   0x6b901122, 0xfd987193, 0xa679438e, 0x49b40821,
   0xf61e2562, 0xc040b340, 0x265e5a51, 0xe9b6c7aa,
   0xd62f105d, 0x02441453, 0xd8a1e681, 0xe7d3fbc8,
   0x21e1cde6, 0xc33707d6, 0xf4d50d87, 0x455a14ed,
   0xa9e3e905, 0xfcefa3f8, 0x676f02d9, 0x8d2a4c8a,
   0xfffa3942, 0x8771f681, 0x6d9d6122, 0xfde5380c,
   0xa4beea44, 0x4bdecfa9, 0xf6bb4b60, 0xbebfbc70,
   0x289b7ec6, 0xeaa127fa, 0xd4ef3085, 0x04881d05,
   0xd9d4d039, 0xe6db99e5, 0x1fa27cf8, 0xc4ac5665,
   0xf4292244, 0x432aff97, 0xab9423a7, 0xfc93a039,
   0x655b59c3, 0x8f0ccc92, 0xffeff47d, 0x85845dd1,
   0x6fa87e4f, 0xfe2ce6e0, 0xa3014314, 0x4e0811a1,
   0xf7537e82, 0xbd3af235, 0x2ad7d2bb, 0xeb86d391]

/-- The 64 per-round left-rotation amounts. -/
def S : List Nat :=
  [7, 12, 17, 22, 7, 12, 17, 22, 7, 12, 17, 22, 7, 12, 17, 22,
   5, 9, 14, 20, 5, 9, 14, 20, 5, 9, 14, 20, 5, 9, 14, 20,
   4, 11, 16, 23, 4, 11, 16, 23, 4, 11, 16, 23, 4, 11, 16, 23,
   6, 10, 15, 21, 6, 10, 15, 21, 6, 10, 15, 21, 6, 10, 15, 21]

structure Digest where
  a : Nat
  b : Nat
  c : Nat
  d : Nat
deriving DecidableEq

def initDigest : Digest :=
  ⟨0x67452301, 0xefcdab89, 0x98badcfe, 0x10325476⟩

/-- One of the 64 rounds, applied to state `st` with message words `M`. -/
def round (M : List Nat) (st : Digest) (i : Nat) : Digest :=
  let fg : Nat × Nat :=
    if i < 16 then ((st.b &&& st.c) ||| (bnot32 st.b &&& st.d), i)
    else if i < 32 then ((st.d &&& st.b) ||| (bnot32 st.d &&& st.c), (5 * i + 1) % 16)
    else if i < 48 then (st.b ^^^ st.c ^^^ st.d, (3 * i + 5) % 16)
    else (st.c ^^^ (st.b ||| bnot32 st.d), (7 * i) % 16)
  let tmp : Nat := (fg.1 + st.a + K.getD i 0 + M.getD fg.2 0) % mod32
  { a := st.d
    b := (st.b + rotl32 tmp (S.getD i 0)) % mod32
    c := st.b
    d := st.c }

/-- Process one 64-byte block (little-endian word decoding, 64 rounds,
Davies–Meyer style feed-forward addition). -/
def processBlock (st : Digest) (block : List Nat) : Digest :=
  let M : List Nat := (List.range 16).map fun j =>
    block.getD (4 * j) 0 + 256 * block.getD (4 * j + 1) 0 +
      65536 * block.getD (4 * j + 2) 0 + 16777216 * block.getD (4 * j + 3) 0
  let r := (List.range 64).foldl (round M) st
  { a := (st.a + r.a) % mod32
    b := (st.b + r.b) % mod32
    c := (st.c + r.c) % mod32
    d := (st.d + r.d) % mod32 }

/-- Merkle–Damgård padding: a `0x80` byte, zeros to 56 mod 64, then the
original bit length as a 64-bit little-endian quantity. -/
def pad (msg : List Nat) : List Nat :=
  let len := msg.length
  let zeros := (119 - len % 64) % 64
  let bitLen := (8 * len) % (2 ^ 64)
  msg ++ [128] ++ List.replicate zeros 0 ++
    (List.range 8).map (fun i => (bitLen >>> (8 * i)) % 256)

/-- Split a byte list into 64-byte chunks; `fuel` bounds the recursion depth
so that the definition is structurally recursive and reduces. -/
def chunksAux : Nat → List Nat → List (List Nat)
  | _, [] => []
  | 0, _ :: _ => []
  | fuel + 1, x :: xs => List.take 64 (x :: xs) :: chunksAux fuel (List.drop 63 xs)

/-- Split a byte list into 64-byte chunks. -/
def chunks (l : List Nat) : List (List Nat) :=
  chunksAux l.length l

/-- Little-endian byte decomposition of a 32-bit word. -/
def wordBytes (w : Nat) : List Nat :=
  [w % 256, (w >>> 8) % 256, (w >>> 16) % 256, (w >>> 24) % 256]

/-- The 16-byte MD5 digest of a byte list. -/
def md5Bytes (msg : List Nat) : List Nat :=
  let f := (chunks (pad msg)).foldl processBlock initDigest
  wordBytes f.a ++ wordBytes f.b ++ wordBytes f.c ++ wordBytes f.d

/-- Lowercase hexadecimal digit for `n < 16`. -/
def hexDigitChar (n : Nat) : Char :=
  if n < 10 then Char.ofNat (48 + n) else Char.ofNat (87 + n)

/-- Two lowercase hex characters for one byte. -/
def byteToHex (b : Nat) : List Char :=
  [hexDigitChar ((b / 16) % 16), hexDigitChar (b % 16)]

/-- The 32 hex characters of the MD5 digest ("digest('hex')" in node). -/
def md5HexChars (msg : List Nat) : List Char :=
  ((md5Bytes msg).map byteToHex).flatten

def md5Hex (msg : List Nat) : String :=
  ⟨md5HexChars msg⟩

end MD5

/-- UTF-8 encoding of one character (node's `update(payload)` encodes the
JavaScript string as UTF-8 before hashing). -/
def utf8Char (c : Char) : List Nat :=
  let n := c.toNat
  if n < 128 then [n]
  else if n < 2048 then [192 + n / 64, 128 + n % 64]
  else if n < 65536 then [224 + n / 4096, 128 + (n / 64) % 64, 128 + n % 64]
  else [240 + n / 262144, 128 + (n / 4096) % 64, 128 + (n / 64) % 64, 128 + n % 64]

def strToBytes (s : String) : List Nat :=
  (s.data.map utf8Char).flatten

/-! ### JSON.stringify, for string-valued objects -/

/-- Escaping of one character inside a JSON string literal, as
`JSON.stringify` performs it: quote and backslash are escaped, the control
characters with short forms use them, the remaining control characters
become `\u00xx`, and everything else is emitted verbatim. -/
def jsonEscapeChar (c : Char) : List Char :=
  let n := c.toNat
  if n = 34 then [Char.ofNat 92, Char.ofNat 34]
  else if n = 92 then [Char.ofNat 92, Char.ofNat 92]
  else if n = 8 then [Char.ofNat 92, Char.ofNat 98]
  else if n = 9 then [Char.ofNat 92, Char.ofNat 116]
  else if n = 10 then [Char.ofNat 92, Char.ofNat 110]
  else if n = 12 then [Char.ofNat 92, Char.ofNat 102]
  else if n = 13 then [Char.ofNat 92, Char.ofNat 114]
  else if n < 32 then
    Char.ofNat 92 :: Char.ofNat 117 :: Char.ofNat 48 :: Char.ofNat 48 :: MD5.byteToHex n
  else [c]

/-- A JSON string literal for `s`. -/
def jsonQuote (s : String) : String :=
  ⟨Char.ofNat 34 :: ((s.data.map jsonEscapeChar).flatten ++ [Char.ofNat 34])⟩

/-- Serialization of a JavaScript object given its own enumerable properties
in insertion order, each value already serialized.  `JSON.stringify` emits
string-keyed properties in insertion order; it does not sort keys. -/
def jsonObj (fields : List (String × String)) : String :=
  "\x7b" ++ String.intercalate "," (fields.map fun kv => jsonQuote kv.1 ++ ":" ++ kv.2) ++ "\x7d"

/-- A JavaScript object with string-valued properties, as the ordered list of
its properties in insertion order.  The `config` prop of
`CdkResourceInitializerProps` is such an object with properties
`credsSecretName` and `dbSecretName`. -/
abbrev JsObject := List (String × String)

/-- The `config` object as the stack constructs it: `credsSecretName` first,
then `dbSecretName`. -/
def mkConfig (credsSecretName dbSecretName : String) : JsObject :=
  [("credsSecretName", credsSecretName), ("dbSecretName", dbSecretName)]

/-- The JSON serialization of a string-valued object. -/
def jsObjectJson (o : JsObject) : String :=
  jsonObj (o.map fun kv => (kv.1, jsonQuote kv.2))

/-- `JSON.stringify` of the invocation payload object
`params.config := props.config` built by the initializer. -/
def payloadOf (config : JsObject) : String :=
  jsonObj [("params", jsonObj [("config", jsObjectJson config)])]

/-- Deep structural equality of two string-valued objects: the same value at
every key, independently of insertion order. -/
def structEq (o1 o2 : JsObject) : Prop :=
  ∀ k : String, o1.lookup k = o2.lookup k

/-! ### The invocation fingerprint and physical identity -/

/-- The invocation fingerprint:
`createHash('md5').update(payload).digest('hex').substring(0, 6)`. -/
def payloadHashPrefix (config : JsObject) : String :=
  ⟨(MD5.md5HexChars (strToBytes (payloadOf config))).take 6⟩

/-- The physical resource id of the SDK call; in the source
`fn.currentVersion.version + payloadHashPrefix` is string concatenation, so
the id is the logical name, the literal `-AwsSdkCall-`, the version, and the
fingerprint, in that order. -/
def mkPhysicalResourceId (id version : String) (config : JsObject) : String :=
  id ++ "-AwsSdkCall-" ++ (version ++ payloadHashPrefix config)

/-- The Lambda function name `id-ResInit` followed by the stack name. -/
def resInitFunctionName (id stackName : String) : String :=
  id ++ "-ResInit" ++ stackName

structure AwsSdkCall where
  service : String
  action : String
  functionName : String
  payload : String
  physicalResourceId : String
deriving DecidableEq

/-- The `AwsSdkCall` the initializer declares: invoke the initializer Lambda
with the serialized payload, under the fingerprint-derived physical id. -/
def sdkCall (id stackName version : String) (config : JsObject) : AwsSdkCall :=
  { service := "Lambda"
    action := "invoke"
    functionName := resInitFunctionName id stackName
    payload := payloadOf config
    physicalResourceId := mkPhysicalResourceId id version config }

/-! ### IAM policy statements and roles -/

structure PolicyStatement where
  actions : List String
  resources : List String
deriving DecidableEq

def logPolicy : PolicyStatement :=
  { actions := ["logs:CreateLogGroup", "logs:CreateLogStream", "logs:PutLogEvents"]
    resources := ["arn:aws:logs:*:*:*"] }

def vpcAccessPolicyStatement : PolicyStatement :=
  { actions := ["ec2:CreateNetworkInterface", "ec2:DescribeNetworkInterfaces",
                "ec2:DeleteNetworkInterface"]
    resources := ["*"] }

/-- The statements added to `LambdaExecutionRole`, in `addToPolicy` order:
`logPolicy`, then `vpcAccessPolicyStatement`, then the loop over
`props.policies`. -/
def lambdaExecutionRolePolicies (propsPolicies : List PolicyStatement) : List PolicyStatement :=
  propsPolicies.foldl (fun acc p => acc ++ [p]) [logPolicy, vpcAccessPolicyStatement]

/-- The resource pattern of the one statement added to
`AwsCustomResourceRole`. -/
def invokeFunctionResource (region account stackName : String) : String :=
  "arn:aws:lambda:" ++ region ++ ":" ++ account ++ ":function:*-ResInit" ++ stackName

/-- The statements added to `AwsCustomResourceRole`: a single grant of
`lambda:InvokeFunction` on `invokeFunctionResource`. -/
def customResourceFnRolePolicies (region account stackName : String) : List PolicyStatement :=
  [{ actions := ["lambda:InvokeFunction"]
     resources := [invokeFunctionResource region account stackName] }]

/-- The ARN of the initializer Lambda itself. -/
def targetFunctionArn (region account id stackName : String) : String :=
  "arn:aws:lambda:" ++ region ++ ":" ++ account ++ ":function:" ++
    resInitFunctionName id stackName

/-- IAM resource matching: `*` matches any character sequence and `?` one
character; other characters match literally.  `fuel` bounds recursion depth
so the definition reduces; `pattern.length + arn.length + 1` always
suffices. -/
def globMatchAux : Nat → List Char → List Char → Bool
  | 0, _, _ => false
  | _ + 1, [], s => s.isEmpty
  | fuel + 1, p :: ps, s =>
    if p = Char.ofNat 42 then
      globMatchAux fuel ps s ||
        (match s with
         | [] => false
         | _ :: cs => globMatchAux fuel (p :: ps) cs)
    else
      match s with
      | [] => false
      | c :: cs => (p = Char.ofNat 63 || p = c) && globMatchAux fuel ps cs

/-- Does the IAM resource `pattern` match the concrete `arn`? -/
def iamResourceMatch (pattern arn : String) : Bool :=
  globMatchAux (pattern.data.length + arn.data.length + 1) pattern.data arn.data

/-! ### The custom resource and its lifecycle -/

structure AwsCustomResource where
  onCreate : Option AwsSdkCall
  onUpdate : Option AwsSdkCall
  onDelete : Option AwsSdkCall
  timeoutMinutes : Nat
deriving DecidableEq

/-- The `AwsCustomResource` the initializer declares: only `onUpdate` is
given; no `onCreate` and no `onDelete` call is registered. -/
def customResource (id stackName version : String) (config : JsObject) : AwsCustomResource :=
  { onCreate := none
    onUpdate := some (sdkCall id stackName version config)
    onDelete := none
    timeoutMinutes := 10 }

inductive CfnEvent where
  | create
  | update
  | delete
deriving DecidableEq

/-- Modelled from the spec: the declarative engine's lifecycle hooks are
"on create or update" (which run the registered call; a custom resource
without an `onCreate` call uses its `onUpdate` call for create events) and
"on delete", which runs only a registered `onDelete` call. -/
def callFor (cr : AwsCustomResource) : CfnEvent → Option AwsSdkCall
  | CfnEvent.create => cr.onCreate.orElse fun _ => cr.onUpdate
  | CfnEvent.update => cr.onUpdate
  | CfnEvent.delete => cr.onDelete

/-- Number of Action Target invocations handling one lifecycle event issues. -/
def eventInvocations (cr : AwsCustomResource) (e : CfnEvent) : Nat :=
  match callFor cr e with
  | some _ => 1
  | none => 0

/-- The structured output of one successful invocation, as named response
fields. -/
abbrev InvocationResult := List (String × String)

/-- Modelled from the spec: the per-resource states of the Lifecycle
Trigger's state machine (the transient `Pending` state is subsumed in the
atomic convergence step below). -/
inductive LifecycleState where
  | absent
  | applied (pid : String) (result : InvocationResult)
  | failed
deriving DecidableEq

/-- The last recorded physical identity, if any. -/
def recordedId : LifecycleState → Option String
  | LifecycleState.applied pid _ => some pid
  | _ => none

/-- Modelled from the spec: one convergence pass of the declarative engine
over the initializer.  The candidate physical identity is computed from the
configuration payload and the Action Target version; if it equals the
recorded one nothing happens, otherwise the Action Target is invoked once
with the serialized payload, reaching `applied` on success and `failed` on
error.  Returns the new state and how many invocations the pass issued. -/
def convergencePass (invoke : String → Except String InvocationResult)
    (id stackName version : String) (config : JsObject)
    (st : LifecycleState) : LifecycleState × Nat :=
  let candidate := (sdkCall id stackName version config).physicalResourceId
  if recordedId st = some candidate then (st, 0)
  else
    match invoke (sdkCall id stackName version config).payload with
    | Except.ok r => (LifecycleState.applied candidate r, 1)
    | Except.error _ => (LifecycleState.failed, 1)

/-- Modelled from the spec: the Result Publisher
(`customResource.getResponseField('Payload')`) resolves a response field only
once the trigger is `applied`; in the `failed` state (and before any
invocation) resolution fails loudly instead of yielding a value. -/
def getResponseField (st : LifecycleState) (field : String) : Except String String :=
  match st with
  | LifecycleState.applied _ r =>
    match r.lookup field with
    | some v => Except.ok v
    | none => Except.error "missing response field"
  | LifecycleState.absent => Except.error "not yet applied"
  | LifecycleState.failed => Except.error "invocation failed"

/-- Is `c` a lowercase hexadecimal digit? -/
def isLowerHexDigit (c : Char) : Bool :=
  (48 ≤ c.toNat && c.toNat ≤ 57) || (97 ≤ c.toNat && c.toNat ≤ 102)

/-! ### The enclosing stack's `createServerlessRDS` -/

structure SecretRef where
  secretName : String
  secretArn : String
deriving DecidableEq

structure InitializerModel where
  policies : List PolicyStatement
  config : JsObject
deriving DecidableEq

/-- `ExampleFargateStack.createServerlessRDS`: when the cluster's admin
secret is `undefined` it throws `ReferenceError('rdsAdminSecret is
undefined')` before the initializer construct — and hence any custom-resource
SDK call — exists; otherwise it constructs the initializer with the three
database policies and the config `credsSecretName := admin secret name`,
`dbSecretName := app secret name`, in that insertion order. -/
def createServerlessRDS (rdsAdminSecret : Option SecretRef) (rdsAppSecret : SecretRef)
    (clusterArn : String) : Except String InitializerModel :=
  match rdsAdminSecret with
  | none => Except.error "rdsAdminSecret is undefined"
  | some adminSecret =>
    let adminDBPolicy : PolicyStatement :=
      { actions := ["secretsmanager:GetSecretValue"]
        resources := [adminSecret.secretArn] }
    let appDBPolicy : PolicyStatement :=
      { actions := ["secretsmanager:GetSecretValue", "secretsmanager:PutSecretValue"]
        resources := [rdsAppSecret.secretArn] }
    let rdsPolicyStatement : PolicyStatement :=
      { actions := ["rds:*"], resources := [clusterArn] }
    Except.ok
      { policies := [appDBPolicy, adminDBPolicy, rdsPolicyStatement]
        config := mkConfig adminSecret.secretName rdsAppSecret.secretName }

end ExampleEcs

set_option maxRecDepth 100000

namespace ExampleEcs

/-! ### Supporting lemmas -/

theorem md5Bytes_length (m : List Nat) : (MD5.md5Bytes m).length = 16 := by
  simp [MD5.md5Bytes, MD5.wordBytes]

theorem flatten_byteToHex_length (l : List Nat) :
    ((l.map MD5.byteToHex).flatten).length = 2 * l.length := by
  induction l with
  | nil => simp
  | cons x xs ih => simp [MD5.byteToHex, ih]; omega

theorem md5HexChars_length (m : List Nat) : (MD5.md5HexChars m).length = 32 := by
  show (((MD5.md5Bytes m).map MD5.byteToHex).flatten).length = 32
  rw [flatten_byteToHex_length, md5Bytes_length]

theorem payloadHashPrefix_length (cfg : JsObject) : (payloadHashPrefix cfg).length = 6 := by
  show ((MD5.md5HexChars (strToBytes (payloadOf cfg))).take 6).length = 6
  simp [List.length_take, md5HexChars_length]

theorem hexDigitChar_isLower (n : Nat) (h : n < 16) :
    isLowerHexDigit (MD5.hexDigitChar n) = true := by
  interval_cases n <;> decide

theorem byteToHex_chars (b : Nat) : ∀ c ∈ MD5.byteToHex b, isLowerHexDigit c = true := by
  intro c hc
  simp [MD5.byteToHex] at hc
  rcases hc with h | h <;> subst h <;>
    exact hexDigitChar_isLower _ (Nat.mod_lt _ (by decide))

theorem md5HexChars_lower (m : List Nat) :
    ∀ c ∈ MD5.md5HexChars m, isLowerHexDigit c = true := by
  intro c hc
  simp only [MD5.md5HexChars, List.mem_flatten, List.mem_map] at hc
  rcases hc with ⟨s, ⟨b, _, rfl⟩, hcs⟩
  exact byteToHex_chars b c hcs

theorem payloadHashPrefix_chars (cfg : JsObject) :
    ∀ c ∈ (payloadHashPrefix cfg).data, isLowerHexDigit c = true := by
  intro c hc
  exact md5HexChars_lower (strToBytes (payloadOf cfg)) c (List.mem_of_mem_take hc)

theorem mkPhysicalResourceId_eq_iff (id v1 v2 : String) (c1 c2 : JsObject) :
    mkPhysicalResourceId id v1 c1 = mkPhysicalResourceId id v2 c2 ↔
      v1 = v2 ∧ payloadHashPrefix c1 = payloadHashPrefix c2 := by
  constructor
  · intro h
    have hd := congrArg String.data h
    simp only [mkPhysicalResourceId, String.data_append, List.append_assoc] at hd
    have h2 := List.append_cancel_left (List.append_cancel_left hd)
    have hlen : (payloadHashPrefix c1).data.length = (payloadHashPrefix c2).data.length := by
      show (payloadHashPrefix c1).length = (payloadHashPrefix c2).length
      rw [payloadHashPrefix_length, payloadHashPrefix_length]
    obtain ⟨hv, hf⟩ := List.append_inj' h2 hlen
    exact ⟨String.ext hv, String.ext hf⟩
  · intro ⟨hv, hf⟩
    simp [mkPhysicalResourceId, hv, hf]

theorem foldl_append_singleton {α : Type} (l init : List α) :
    l.foldl (fun acc p => acc ++ [p]) init = init ++ l := by
  induction l generalizing init with
  | nil => simp
  | cons x xs ih => simp [List.foldl_cons, ih]

/-! ### The claims -/

/-- C1: two convergence passes in succession with an unchanged configuration
payload, starting before any invocation, issue exactly one Action Target
invocation; the first pass records the candidate physical identity, so the
second pass finds the candidate equal to the recorded one and performs no
invocation. -/
theorem two_passes_one_invocation (invoke : String → Except String InvocationResult)
    (id stackName version : String) (cfg : JsObject) (r : InvocationResult)
    (hok : invoke (payloadOf cfg) = Except.ok r) :
    (convergencePass invoke id stackName version cfg LifecycleState.absent).2 +
      (convergencePass invoke id stackName version cfg
        (convergencePass invoke id stackName version cfg LifecycleState.absent).1).2 = 1 ∧
    recordedId (convergencePass invoke id stackName version cfg LifecycleState.absent).1 =
      some (sdkCall id stackName version cfg).physicalResourceId := by
  simp [convergencePass, recordedId, sdkCall, hok]

/-- Witness for C1 at a concrete configuration and a concrete succeeding
Action Target. -/
theorem two_passes_one_invocation_witness :
    (convergencePass (fun _ => Except.ok [("Payload", "done")]) "Initializer"
        "ExampleFargateStack" "1" (mkConfig "a" "b") LifecycleState.absent).2 +
      (convergencePass (fun _ => Except.ok [("Payload", "done")]) "Initializer"
        "ExampleFargateStack" "1" (mkConfig "a" "b")
        (convergencePass (fun _ => Except.ok [("Payload", "done")]) "Initializer"
          "ExampleFargateStack" "1" (mkConfig "a" "b") LifecycleState.absent).1).2 = 1 ∧
    recordedId (convergencePass (fun _ => Except.ok [("Payload", "done")]) "Initializer"
        "ExampleFargateStack" "1" (mkConfig "a" "b") LifecycleState.absent).1 =
      some (sdkCall "Initializer" "ExampleFargateStack" "1" (mkConfig "a" "b")).physicalResourceId :=
  two_passes_one_invocation (fun _ => Except.ok [("Payload", "done")]) "Initializer"
    "ExampleFargateStack" "1" (mkConfig "a" "b") [("Payload", "done")] rfl

/-- C2 counterexample: the payload with `credsSecretName:"a", dbSecretName:"b"`
and the same payload with its keys constructed in the reordered sequence are
structurally equal (equal value at every key), yet their fingerprints differ:
`JSON.stringify` emits properties in insertion order, so the two
constructions serialize differently and hash differently. -/
theorem reordered_config_different_fingerprint :
    structEq (mkConfig "a" "b") [("dbSecretName", "b"), ("credsSecretName", "a")] ∧
    payloadHashPrefix (mkConfig "a" "b") ≠
      payloadHashPrefix [("dbSecretName", "b"), ("credsSecretName", "a")] := by
  constructor
  · intro k
    by_cases h1 : k = "credsSecretName"
    · subst h1; decide
    · by_cases h2 : k = "dbSecretName"
      · subst h2; decide
      · have b1 : (k == "credsSecretName") = false := beq_eq_false_iff_ne.mpr h1
        have b2 : (k == "dbSecretName") = false := beq_eq_false_iff_ne.mpr h2
        simp [mkConfig, List.lookup, b1, b2]
  · decide

/-- C2 amended: the fingerprint is determined by the serialized payload, so
payloads with equal serializations always agree; but serialization follows
the construction (insertion) order of the keys rather than a stable sorted
order, and the reordered construction of the same record yields a different
fingerprint. -/
theorem fingerprint_determined_by_serialization :
    (∀ c1 c2 : JsObject, payloadOf c1 = payloadOf c2 →
      payloadHashPrefix c1 = payloadHashPrefix c2) ∧
    payloadHashPrefix [("dbSecretName", "b"), ("credsSecretName", "a")] ≠
      payloadHashPrefix (mkConfig "a" "b") := by
  constructor
  · intro c1 c2 h
    simp [payloadHashPrefix, h]
  · decide

/-- Witness for the universally quantified part of the amended C2. -/
theorem fingerprint_determined_by_serialization_witness :
    payloadHashPrefix (mkConfig "a" "b") = payloadHashPrefix (mkConfig "a" "b") :=
  fingerprint_determined_by_serialization.1 (mkConfig "a" "b") (mkConfig "a" "b") rfl

/-- C3 counterexample: changing `dbSecretName` from `"v8490"` to `"v14873"`
changes the configuration payload but not the 6-character fingerprint (a
concrete MD5-prefix collision), hence not the physical identity, and a
convergence pass after the change performs no new invocation. -/
theorem field_change_fingerprint_collision :
    payloadHashPrefix (mkConfig "a" "v8490") = payloadHashPrefix (mkConfig "a" "v14873") ∧
    mkConfig "a" "v8490" ≠ mkConfig "a" "v14873" ∧
    mkPhysicalResourceId "Initializer" "1" (mkConfig "a" "v8490") =
      mkPhysicalResourceId "Initializer" "1" (mkConfig "a" "v14873") ∧
    (convergencePass (fun _ => Except.ok [("Payload", "done")]) "Initializer"
        "ExampleFargateStack" "1" (mkConfig "a" "v14873")
        (LifecycleState.applied
          (mkPhysicalResourceId "Initializer" "1" (mkConfig "a" "v8490"))
          [("Payload", "done")])).2 = 0 := by
  exact ⟨by decide, by decide, by decide, by decide⟩

/-- C3 amended: in the spec's concrete scenario — `dbSecretName` changed from
`"b"` to `"c"` — the fingerprint changes, the physical identity changes, and
the next convergence pass issues exactly one new invocation; but this is not
universal: the 6-character fingerprint can collide for distinct payloads, in
which case no new invocation occurs. -/
theorem field_change_new_invocation_concrete :
    payloadHashPrefix (mkConfig "a" "b") ≠ payloadHashPrefix (mkConfig "a" "c") ∧
    mkPhysicalResourceId "Initializer" "1" (mkConfig "a" "b") ≠
      mkPhysicalResourceId "Initializer" "1" (mkConfig "a" "c") ∧
    (convergencePass (fun _ => Except.ok [("Payload", "done")]) "Initializer"
        "ExampleFargateStack" "1" (mkConfig "a" "c")
        (convergencePass (fun _ => Except.ok [("Payload", "done")]) "Initializer"
          "ExampleFargateStack" "1" (mkConfig "a" "b") LifecycleState.absent).1).2 = 1 := by
  exact ⟨by decide, by decide, by decide⟩

/-- C4: the physical identity is the logical name, the literal
`-AwsSdkCall-`, the version and the fingerprint, in that order; with the
logical name fixed it is equal exactly when version and fingerprint are both
equal, and bumping the version changes it even for a byte-identical
configuration payload. -/
theorem physical_identity_format (id v1 v2 : String) (c1 c2 : JsObject) (hv : v1 ≠ v2) :
    mkPhysicalResourceId id v1 c1 = id ++ "-AwsSdkCall-" ++ (v1 ++ payloadHashPrefix c1) ∧
    (mkPhysicalResourceId id v1 c1 = mkPhysicalResourceId id v2 c2 ↔
      v1 = v2 ∧ payloadHashPrefix c1 = payloadHashPrefix c2) ∧
    mkPhysicalResourceId id v1 c1 ≠ mkPhysicalResourceId id v2 c1 := by
  refine ⟨rfl, mkPhysicalResourceId_eq_iff id v1 v2 c1 c2, fun h => ?_⟩
  exact hv ((mkPhysicalResourceId_eq_iff id v1 v2 c1 c1).mp h).1

/-- Witness for C4: a version bump alone changes the physical identity. -/
theorem physical_identity_format_witness :
    mkPhysicalResourceId "Initializer" "1" (mkConfig "a" "b") ≠
      mkPhysicalResourceId "Initializer" "2" (mkConfig "a" "b") :=
  (physical_identity_format "Initializer" "1" "2" (mkConfig "a" "b") (mkConfig "a" "b")
    (by decide)).2.2

/-- C5: the custom resource registers an SDK call for create events (via the
`onUpdate` fallback) and update events only; no call is registered for
delete, so a delete event issues zero Action Target invocations, whatever the
configuration. -/
theorem delete_event_never_invokes (id stackName version : String) (cfg : JsObject) :
    (customResource id stackName version cfg).onDelete = none ∧
    callFor (customResource id stackName version cfg) CfnEvent.delete = none ∧
    eventInvocations (customResource id stackName version cfg) CfnEvent.delete = 0 ∧
    callFor (customResource id stackName version cfg) CfnEvent.create =
      some (sdkCall id stackName version cfg) ∧
    callFor (customResource id stackName version cfg) CfnEvent.update =
      some (sdkCall id stackName version cfg) :=
  ⟨rfl, rfl, rfl, rfl, rfl⟩

/-- C6 counterexample: the invoking identity's grant uses the wildcard
resource `arn:aws:lambda:{region}:{account}:function:*-ResInit{stackName}`,
which matches the ARN of a function named `Other-ResInit...` that is not the
Action Target — so the grant does not name exactly the one target function. -/
theorem invoke_grant_matches_other_function :
    iamResourceMatch (invokeFunctionResource "us-east-1" "123456789012" "ExampleFargateStack")
      (targetFunctionArn "us-east-1" "123456789012" "Other" "ExampleFargateStack") = true ∧
    targetFunctionArn "us-east-1" "123456789012" "Other" "ExampleFargateStack" ≠
      targetFunctionArn "us-east-1" "123456789012" "Initializer" "ExampleFargateStack" := by
  exact ⟨by decide, by decide⟩

/-- C6 amended: the invoking identity's policy is a single grant of only
`lambda:InvokeFunction` on the name pattern `*-ResInit{stackName}`; the
pattern matches the Action Target's ARN, but it is a name-suffix family
rather than exactly the one target function. -/
theorem invoke_grant_scoped_to_suffix_family (region account stackName : String) :
    customResourceFnRolePolicies region account stackName =
      [⟨["lambda:InvokeFunction"], [invokeFunctionResource region account stackName]⟩] ∧
    iamResourceMatch (invokeFunctionResource "us-east-1" "123456789012" "ExampleFargateStack")
      (targetFunctionArn "us-east-1" "123456789012" "Initializer" "ExampleFargateStack") = true ∧
    iamResourceMatch (invokeFunctionResource "us-east-1" "123456789012" "ExampleFargateStack")
      (targetFunctionArn "us-east-1" "123456789012" "Other" "ExampleFargateStack") = true := by
  exact ⟨rfl, by decide, by decide⟩

/-- C7: the execution role's ordered policy set is exactly the logging grant,
then the network-interface grant, then the caller-supplied grants in the
order given, and nothing else. -/
theorem execution_role_policy_order (propsPolicies : List PolicyStatement) :
    lambdaExecutionRolePolicies propsPolicies =
      ⟨["logs:CreateLogGroup", "logs:CreateLogStream", "logs:PutLogEvents"],
        ["arn:aws:logs:*:*:*"]⟩ ::
      ⟨["ec2:CreateNetworkInterface", "ec2:DescribeNetworkInterfaces",
          "ec2:DeleteNetworkInterface"], ["*"]⟩ :: propsPolicies := by
  simp [lambdaExecutionRolePolicies, foldl_append_singleton, logPolicy,
    vpcAccessPolicyStatement]

/-- C8: in the `failed` state every attempt to resolve a response field of
the Result Publisher fails loudly with an error rather than yielding any
value. -/
theorem failed_state_refuses_resolution (field : String) :
    getResponseField LifecycleState.failed field = Except.error "invocation failed" ∧
    ∀ v : String, getResponseField LifecycleState.failed field ≠ Except.ok v :=
  ⟨rfl, fun _ h => Except.noConfusion h⟩

/-- C9: when the database cluster's admin credential reference is undefined,
`createServerlessRDS` throws before the initializer is constructed: it
returns the `ReferenceError` message and no initializer model, so no Action
Target invocation can ever arise from it. -/
theorem missing_admin_secret_fails_fast (rdsAppSecret : SecretRef) (clusterArn : String) :
    createServerlessRDS none rdsAppSecret clusterArn =
      Except.error "rdsAdminSecret is undefined" ∧
    ∀ init : InitializerModel,
      createServerlessRDS none rdsAppSecret clusterArn ≠ Except.ok init :=
  ⟨rfl, fun _ h => Except.noConfusion h⟩

/-- C10: every fingerprint has exactly 6 characters, all lowercase
hexadecimal; hence the physical identity decomposes uniquely into its version
and fingerprint parts, and two distinct (version, fingerprint) pairs never
produce the same physical identity string. -/
theorem fingerprint_shape_and_identity_injective (cfg : JsObject) (id v1 v2 : String)
    (c1 c2 : JsObject)
    (h : (v1, payloadHashPrefix c1) ≠ (v2, payloadHashPrefix c2)) :
    (payloadHashPrefix cfg).length = 6 ∧
    (∀ ch ∈ (payloadHashPrefix cfg).data, isLowerHexDigit ch = true) ∧
    mkPhysicalResourceId id v1 c1 ≠ mkPhysicalResourceId id v2 c2 := by
  refine ⟨payloadHashPrefix_length cfg, payloadHashPrefix_chars cfg, fun heq => h ?_⟩
  obtain ⟨hv, hf⟩ := (mkPhysicalResourceId_eq_iff id v1 v2 c1 c2).mp heq
  rw [hv, hf]

/-- Witness for C10: distinct versions with the same configuration give
distinct physical identities. -/
theorem fingerprint_shape_and_identity_injective_witness :
    mkPhysicalResourceId "Initializer" "3" (mkConfig "a" "b") ≠
      mkPhysicalResourceId "Initializer" "4" (mkConfig "a" "b") :=
  (fingerprint_shape_and_identity_injective (mkConfig "a" "b") "Initializer" "3" "4"
    (mkConfig "a" "b") (mkConfig "a" "b")
    (fun heq => absurd (congrArg Prod.fst heq) (by decide))).2.2

end ExampleEcs
